import Mathlib

/-! # tifgo: signed gateway requests and their verification

A shallow embedding of `tif.go` (package `tifgo`).

Conventions of the embedding:

* a Go `string` or `[]byte` holding text is a Lean `String`; where the code
  hashes `[]byte(s)` the model hashes the UTF-8 bytes of `s`;
* a Go `int64` is an `Int` kept inside `[-2^63, 2^63)`: every `+` and `-` of
  the source on `int64` values is followed by `wrapInt64`;
* a Go `error` is an `Option GoError`, `none` being `nil`; a `GoError` records
  the place of the source that built it and its message;
* a Go panic is the outer `none` of an `Option` result;
* the standard-library functions the source calls (`sha256.Sum256`,
  `hex.EncodeToString`, `strings.ToUpper`, `strconv.FormatInt`,
  `strconv.ParseInt`, `fmt.Sprintf`, `http.Header`) are modelled after the Go
  standard library, for the arguments the source passes them; `Header.Get` and
  `Header.Add` put the key in canonical form as `net/textproto` does;
* the package variables `opt` and `client` are set (`Init` has been called):
  `opt` is an argument of the functions that read it;
* the clock, the random source, the order in which `range` visits a map, the
  HTTP client (which may return a response together with an error) and the
  JSON library are inputs of the functions that use them (`World`).
-/

namespace Tifgo

/-! ## Bytes and hexadecimal text -/

/-- The bytes `[]byte(s)` of a string: its UTF-8 encoding. -/
def stringBytes (s : String) : List UInt8 :=
  s.data.flatMap String.utf8EncodeChar

/-- One lower-case hexadecimal digit, `"0123456789abcdef"[n]`. -/
def hexDigit (n : Nat) : Char :=
  if n < 10 then Char.ofNat (48 + n) else Char.ofNat (87 + n)

/-- The two hexadecimal digits of one byte, high nibble first. -/
def hexByte (b : UInt8) : List Char :=
  [hexDigit (b.toNat / 16), hexDigit (b.toNat % 16)]

/-- The function `hex.EncodeToString`, which is also what the verb `%x` prints
for a byte array. -/
def EncodeToString (b : List UInt8) : String :=
  String.mk (b.flatMap hexByte)

/-- The function `strings.ToUpper` on ASCII text (the source applies it to
hexadecimal digits only): `a`..`z` become `A`..`Z`, everything else stays. -/
def ToUpper (s : String) : String :=
  String.mk (s.data.map Char.toUpper)

/-! ## SHA-256 (FIPS 180-4), the function behind `sha256.Sum256` -/

/-- Addition of 32-bit words. -/
def add32 (a b : Nat) : Nat := (a + b) % 4294967296

/-- Rotation of a 32-bit word to the right by `n` bits. -/
def rotr (x n : Nat) : Nat := ((x >>> n) ||| (x <<< (32 - n))) % 4294967296

/-- Bitwise complement of a 32-bit word. -/
def not32 (x : Nat) : Nat := x ^^^ 4294967295

/-- The function `Ch` of the standard. -/
def ch (e f g : Nat) : Nat := (e &&& f) ^^^ (not32 e &&& g)

/-- The function `Maj` of the standard. -/
def maj (a b c : Nat) : Nat := (a &&& b) ^^^ (a &&& c) ^^^ (b &&& c)

/-- The four functions on one word that the standard names with the letter
sigma, in upper and lower case. -/
def bigSigma0 (a : Nat) : Nat := rotr a 2 ^^^ rotr a 13 ^^^ rotr a 22

def bigSigma1 (e : Nat) : Nat := rotr e 6 ^^^ rotr e 11 ^^^ rotr e 25

def smallSigma0 (x : Nat) : Nat := rotr x 7 ^^^ rotr x 18 ^^^ (x >>> 3)

def smallSigma1 (x : Nat) : Nat := rotr x 17 ^^^ rotr x 19 ^^^ (x >>> 10)

/-- The 64 round constants. -/
def sha256K : List Nat :=
  [0x428a2f98, 0x71374491, 0xb5c0fbcf, 0xe9b5dba5, 0x3956c25b, 0x59f111f1, 0x923f82a4, 0xab1c5ed5,
   0xd807aa98, 0x12835b01, 0x243185be, 0x550c7dc3, 0x72be5d74, 0x80deb1fe, 0x9bdc06a7, 0xc19bf174,
   0xe49b69c1, 0xefbe4786, 0x0fc19dc6, 0x240ca1cc, 0x2de92c6f, 0x4a7484aa, 0x5cb0a9dc, 0x76f988da,
   0x983e5152, 0xa831c66d, 0xb00327c8, 0xbf597fc7, 0xc6e00bf3, 0xd5a79147, 0x06ca6351, 0x14292967,
   0x27b70a85, 0x2e1b2138, 0x4d2c6dfc, 0x53380d13, 0x650a7354, 0x766a0abb, 0x81c2c92e, 0x92722c85,
   0xa2bfe8a1, 0xa81a664b, 0xc24b8b70, 0xc76c51a3, 0xd192e819, 0xd6990624, 0xf40e3585, 0x106aa070,
   0x19a4c116, 0x1e376c08, 0x2748774c, 0x34b0bcb5, 0x391c0cb3, 0x4ed8aa4a, 0x5b9cca4f, 0x682e6ff3,
   0x748f82ee, 0x78a5636f, 0x84c87814, 0x8cc70208, 0x90befffa, 0xa4506ceb, 0xbef9a3f7, 0xc67178f2]

/-- The eight working words of the hash. -/
structure HashState where
  a : Nat
  b : Nat
  c : Nat
  d : Nat
  e : Nat
  f : Nat
  g : Nat
  h : Nat
deriving DecidableEq, Repr

/-- The initial hash value. -/
def sha256Init : HashState :=
  ⟨0x6a09e667, 0xbb67ae85, 0x3c6ef372, 0xa54ff53a, 0x510e527f, 0x9b05688c, 0x1f83d9ab, 0x5be0cd19⟩

/-- The padding of a message of `len` bytes: `0x80`, zero bytes up to 56 modulo
64, and the bit length as a 64-bit big-endian number. -/
def sha256Padding (len : Nat) : List UInt8 :=
  [(128 : UInt8)] ++ List.replicate ((64 - (len + 9) % 64) % 64) (0 : UInt8)
    ++ (List.range 8).map (fun i => UInt8.ofNat ((len * 8) >>> (8 * (7 - i)) % 256))

/-- Big-endian 32-bit words of a byte sequence, four bytes a word. -/
def beWords : List UInt8 → List Nat
  | b0 :: b1 :: b2 :: b3 :: rest =>
      (b0.toNat * 16777216 + b1.toNat * 65536 + b2.toNat * 256 + b3.toNat) :: beWords rest
  | _ => []

/-- The message schedule: `n` more words appended to the words so far. -/
def extendSchedule : Nat → List Nat → List Nat
  | 0, w => w
  | n + 1, w =>
      let i := w.length
      extendSchedule n
        (w ++ [add32 (add32 (add32 (smallSigma1 (w.getD (i - 2) 0)) (w.getD (i - 7) 0))
                 (smallSigma0 (w.getD (i - 15) 0))) (w.getD (i - 16) 0)])

/-- One round of the compression function, with round constant `k` and
schedule word `w`. -/
def sha256Round (s : HashState) (kw : Nat × Nat) : HashState :=
  let t1 := add32 (add32 (add32 (add32 s.h (bigSigma1 s.e)) (ch s.e s.f s.g)) kw.1) kw.2
  let t2 := add32 (bigSigma0 s.a) (maj s.a s.b s.c)
  ⟨add32 t1 t2, s.a, s.b, s.c, add32 s.d t1, s.e, s.f, s.g⟩

/-- The compression of one 64-byte block into the hash value. -/
def sha256Block (s : HashState) (block : List UInt8) : HashState :=
  let w := extendSchedule 48 (beWords block)
  let t := (sha256K.zip w).foldl sha256Round s
  ⟨add32 s.a t.a, add32 s.b t.b, add32 s.c t.c, add32 s.d t.d,
   add32 s.e t.e, add32 s.f t.f, add32 s.g t.g, add32 s.h t.h⟩

/-- The hash value after all 64-byte blocks of a padded message; `fuel` bounds
the number of blocks. -/
def sha256Blocks : Nat → HashState → List UInt8 → HashState
  | 0, s, _ => s
  | fuel + 1, s, bytes =>
      if bytes.length < 64 then s
      else sha256Blocks fuel (sha256Block s (bytes.take 64)) (bytes.drop 64)

/-- The four bytes of a 32-bit word, most significant first. -/
def wordBytes (w : Nat) : List UInt8 :=
  [UInt8.ofNat (w >>> 24 % 256), UInt8.ofNat (w >>> 16 % 256),
   UInt8.ofNat (w >>> 8 % 256), UInt8.ofNat (w % 256)]

/-- The function `sha256.Sum256`: the 32-byte digest of a byte sequence. -/
def Sum256 (data : List UInt8) : List UInt8 :=
  let padded := data ++ sha256Padding data.length
  let s := sha256Blocks (padded.length / 64 + 1) sha256Init padded
  wordBytes s.a ++ wordBytes s.b ++ wordBytes s.c ++ wordBytes s.d
    ++ wordBytes s.e ++ wordBytes s.f ++ wordBytes s.g ++ wordBytes s.h

/-! ## Decimal numbers: `strconv.FormatInt` and `strconv.ParseInt`, base 10 -/

/-- The value of an `int64` computation whose exact result is `x`: `x` reduced
into `[-2^63, 2^63)` modulo `2^64`. -/
def wrapInt64 (x : Int) : Int :=
  (x + 9223372036854775808) % 18446744073709551616 - 9223372036854775808

/-- One decimal digit as a character. -/
def decimalDigit (d : Nat) : Char := Char.ofNat (48 + d)

/-- The digit loop of `formatBits` for base 10: the digits of `u` are written
in front of `acc`, least significant first, until the last digit is reached.
The first argument bounds the number of turns of the loop. -/
def formatBitsLoop : Nat → Nat → List Char → List Char
  | 0, _, acc => acc
  | fuel + 1, u, acc =>
      if u < 10 then decimalDigit u :: acc
      else formatBitsLoop fuel (u / 10) (decimalDigit (u % 10) :: acc)

/-- The decimal digits of an unsigned number, most significant first. -/
def formatBits (u : Nat) : List Char := formatBitsLoop (u + 1) u []

/-- The call `strconv.FormatInt(i, 10)`. -/
def FormatInt (i : Int) : String :=
  if i < 0 then String.mk ('-' :: formatBits i.natAbs) else String.mk (formatBits i.toNat)

/-- The two errors of `strconv`: `ErrSyntax` and `ErrRange`. -/
inductive NumError where
  | syntaxError
  | rangeError
deriving DecidableEq, Repr

/-- The largest `uint64`. -/
def maxUint64 : Nat := 18446744073709551615

/-- The loop of `strconv.ParseUint(s, 10, 64)` over the characters that are
left, `n` being the number read so far: a character that is no decimal digit
ends the loop with `(0, ErrSyntax)`, a number that leaves the `uint64` range
ends it with `(maxUint64, ErrRange)`. -/
def parseUintLoop : List Char → Nat → Nat × Option NumError
  | [], n => (n, none)
  | c :: rest, n =>
      if 48 ≤ c.toNat ∧ c.toNat ≤ 57 then
        let d := c.toNat - 48
        if n ≥ maxUint64 / 10 + 1 then (maxUint64, some NumError.rangeError)
        else
          let n1 := n * 10 + d
          if n1 > maxUint64 then (maxUint64, some NumError.rangeError)
          else parseUintLoop rest n1
      else if 97 ≤ (c.toNat ||| 32) ∧ (c.toNat ||| 32) ≤ 122 then
        -- a letter is the digit `lower(c) - 'a' + 10`, never below the base 10
        (0, some NumError.syntaxError)
      else (0, some NumError.syntaxError)

/-- The call `strconv.ParseUint(s, 10, 64)` on the characters of `s`. -/
def ParseUint (s : List Char) : Nat × Option NumError :=
  if s = [] then (0, some NumError.syntaxError) else parseUintLoop s 0

/-- The call `strconv.ParseInt(s, 10, 64)`: the value and the error it returns
together. On `ErrSyntax` the value is 0; on `ErrRange` it is the `int64` of
largest magnitude and the sign of the input. -/
def ParseInt (s : String) : Int × Option NumError :=
  match s.data with
  | [] => (0, some NumError.syntaxError)
  | c :: rest =>
      let neg := decide (c = '-')
      let digits := if c = '+' ∨ c = '-' then rest else c :: rest
      let un := (ParseUint digits).1
      let err := (ParseUint digits).2
      if err ≠ none ∧ err ≠ some NumError.rangeError then (0, err)
      else if ¬ neg ∧ un ≥ 9223372036854775808 then
        (9223372036854775807, some NumError.rangeError)
      else if neg ∧ un > 9223372036854775808 then
        (-9223372036854775808, some NumError.rangeError)
      else (if neg then wrapInt64 (-(un : Int)) else wrapInt64 (un : Int), none)

/-! ## `fmt.Sprintf` and errors -/

/-- An operand of `fmt.Sprintf`. -/
inductive Arg where
  | str (v : String)
  | int (v : Int)
  | bytes (v : List UInt8)

/-- The text `fmt.Sprintf` builds, for the verbs the source uses with operands
of the matching kind: `%s` with a string, `%d` with an integer, `%x` with a
byte array. Every other character of the format is copied. -/
def sprintfChars : List Char → List Arg → List Char
  | '%' :: 's' :: fs, Arg.str v :: as => v.data ++ sprintfChars fs as
  | '%' :: 'd' :: fs, Arg.int v :: as => (FormatInt v).data ++ sprintfChars fs as
  | '%' :: 'x' :: fs, Arg.bytes v :: as => (EncodeToString v).data ++ sprintfChars fs as
  | c :: fs, as => c :: sprintfChars fs as
  | [], _ => []

/-- The function `fmt.Sprintf`. -/
def Sprintf (format : String) (args : List Arg) : String :=
  String.mk (sprintfChars format.data args)

/-- The place of the source where an error value is built: the four
`fmt.Errorf` calls of `Do`, `DoAPI` and `AuthSign`, and the errors the
libraries hand to `Do` (`http.NewRequest`, `client.Do`, `ioutil.ReadAll`). -/
inductive ErrorSite where
  | newRequest
  | transport
  | httpStatus
  | bodyRead
  | jsonParse
  | domain
  | timeOffset
  | signatureInvalid
deriving DecidableEq, Repr

/-- A non-nil Go `error`: where it was built and its message. -/
structure GoError where
  site : ErrorSite
  msg : String
deriving DecidableEq, Repr

/-- The call `fmt.Errorf(format, args...)` at a place of the source. -/
def Errorf (site : ErrorSite) (format : String) (args : List Arg) : GoError :=
  ⟨site, Sprintf format args⟩

/-! ## `http.Header` -/

/-- An `http.Header`: the list of values stored under every key, empty for a
key that is absent. -/
abbrev Header := String → List String

/-- The header of a new `http.Request`. -/
def Header.empty : Header := fun _ => []

/-- The bytes a header key may hold (`validHeaderFieldByte`): the ASCII letters
and digits and the fifteen signs of an RFC 7230 token, given by their codes. -/
def validHeaderFieldByte (c : Char) : Bool :=
  (48 ≤ c.toNat ∧ c.toNat ≤ 57) ∨ (65 ≤ c.toNat ∧ c.toNat ≤ 90) ∨ (97 ≤ c.toNat ∧ c.toNat ≤ 122)
    ∨ c.toNat ∈ [33, 35, 36, 37, 38, 39, 42, 43, 45, 46, 94, 95, 96, 124, 126]

/-- The loop of `canonicalMIMEHeaderKey`: a letter is put in upper case when
`upper` holds (at the start and after a dash) and in lower case otherwise. -/
def canonicalLoop : Bool → List Char → List Char
  | _, [] => []
  | upper, c :: cs =>
      let c1 :=
        if upper = true ∧ 97 ≤ c.toNat ∧ c.toNat ≤ 122 then Char.ofNat (c.toNat - 32)
        else if upper = false ∧ 65 ≤ c.toNat ∧ c.toNat ≤ 90 then Char.ofNat (c.toNat + 32)
        else c
      c1 :: canonicalLoop (decide (c1 = '-')) cs

/-- The function `textproto.CanonicalMIMEHeaderKey`: a key with a byte that no
header key may hold is returned as it is, any other key in canonical form. -/
def CanonicalMIMEHeaderKey (s : String) : String :=
  if s.data.all validHeaderFieldByte then String.mk (canonicalLoop true s.data) else s

/-- The method `Header.Get`: the first value stored under the canonical form of
the key, `""` when there is none. -/
def Header.Get (h : Header) (key : String) : String :=
  (h (CanonicalMIMEHeaderKey key)).headD ""

/-- The method `Header.Add`: the value is appended to the values stored under
the canonical form of the key. -/
def Header.Add (h : Header) (key value : String) : Header :=
  fun k =>
    if k = CanonicalMIMEHeaderKey key then h (CanonicalMIMEHeaderKey key) ++ [value] else h k

/-- The header with the given key-value pairs, added in order to the empty
header. -/
def Header.ofList (l : List (String × String)) : Header :=
  l.foldl (fun h kv => h.Add kv.1 kv.2) Header.empty

/-! ## Configuration -/

/-- The struct `Options`. -/
structure Options where
  Hosts : List String
  PaasID : String
  PaasToken : String
  MaxRetries : Int
  TimeOffsetLimit : Int
deriving DecidableEq, Repr

/-- The function `Init`: the options that become the package variable `opt`. -/
def Init (options : Options) : Options :=
  if options.TimeOffsetLimit = 0 then { options with TimeOffsetLimit := 180 } else options

/-! ## Signing and verification -/

/-- Lines 133-134 of `addGateHeader`: the signature of a timestamp text, a
token and a nonce. -/
def gateSignature (ts token nonce : String) : String :=
  let signData := Sprintf "%s%s%s%s" [Arg.str ts, Arg.str token, Arg.str nonce, Arg.str ts]
  ToUpper (Sprintf "%x" [Arg.bytes (Sum256 (stringBytes signData))])

/-- The function `GenerateRandomBytes`: `n` bytes of the random source
(`math/rand.Read` never fails). -/
def GenerateRandomBytes (rand : Nat → UInt8) (n : Nat) : List UInt8 × Option GoError :=
  ((List.range n).map rand, none)

/-- The function `GenerateRandomStringHex`. -/
def GenerateRandomStringHex (rand : Nat → UInt8) (s : Nat) : String :=
  EncodeToString (GenerateRandomBytes rand s).1

/-- The function `addGateHeader` on the header of the request, with the clock
value `now` (`time.Now().Unix()`) and the random source `rand`. -/
def addGateHeader (opt : Options) (now : Int) (rand : Nat → UInt8) (h : Header) : Header :=
  let ts := FormatInt now
  let nonce := GenerateRandomStringHex rand 10
  let signstr := gateSignature ts opt.PaasToken nonce
  (((h.Add "X-Tif-Paasid" opt.PaasID).Add "X-Tif-Timestamp" ts).Add "X-Tif-Nonce" nonce).Add
    "X-Tif-Signature" signstr

/-- The string `AuthSign` hashes (lines 155-160). -/
def authSignData (token uid uinfo ext ts nonce : String) : String :=
  if uid ≠ "" then
    Sprintf "%s%s%s,%s,%s,%s%s"
      [Arg.str ts, Arg.str token, Arg.str nonce, Arg.str uid, Arg.str uinfo, Arg.str ext,
       Arg.str ts]
  else
    Sprintf "%s%s%s%s" [Arg.str ts, Arg.str token, Arg.str nonce, Arg.str ts]

/-- The test of line 152 of `AuthSign` on the parsed timestamp `t`: both bounds
are `int64` results. -/
def timeOffsetExceeded (opt : Options) (now t : Int) : Bool :=
  decide (t < wrapInt64 (now - opt.TimeOffsetLimit) ∨ t > wrapInt64 (now + opt.TimeOffsetLimit))

/-- The function `AuthSign` on the header of the inbound request, with the
package variable `opt` and the clock value `now` (`time.Now().Unix()`). -/
def AuthSign (opt : Options) (now : Int) (h : Header) : Option GoError :=
  let uid := h.Get "X-Tif-Uid"
  let uinfo := h.Get "X-Tif-Uinfo"
  let ext := h.Get "X-Tif-Ext"
  let ts := h.Get "X-Tif-Timestamp"
  let nonce := h.Get "X-Tif-Nonce"
  let sign := h.Get "X-Tif-Signature"
  let t := (ParseInt ts).1
  if timeOffsetExceeded opt now t then
    some (Errorf ErrorSite.timeOffset "Header time offset exceeded limit, timestamp=%s now=%d"
      [Arg.str ts, Arg.int now])
  else
    let signData := authSignData opt.PaasToken uid uinfo ext ts nonce
    let res := ToUpper (Sprintf "%x" [Arg.bytes (Sum256 (stringBytes signData))])
    if res = sign then none
    else
      some (Errorf ErrorSite.signatureInvalid
        "signature invalid, uid=%s uinfo=%s ext=%s timestamp=%s nonce=%s signature=%s"
        [Arg.str uid, Arg.str uinfo, Arg.str ext, Arg.str ts, Arg.str nonce, Arg.str sign])

/-! ## Requests -/

/-- An `http.Request`, as far as the source sets it. -/
structure HttpRequest where
  Method : String
  URL : String
  Body : String
  Header : Header

/-- An `http.Response`, as far as the source reads it: the status code, and
what `ioutil.ReadAll` returns for the body (the bytes read, and the message of
the read error if there is one). -/
structure HttpResponse where
  StatusCode : Int
  Body : String × Option String
deriving DecidableEq, Repr

/-- What `client.Do` returns: a response and no error, or an error, with which
`net/http` hands back no response or, when the redirect policy has failed, the
last response it got. -/
inductive ClientResult where
  | ok (res : HttpResponse)
  | failed (res : Option HttpResponse) (err : String)
deriving DecidableEq, Repr

/-- The struct `Request`. The field `header` is a Go map: `none` is the nil
map, `some l` a map with the entries of `l`, whose keys are distinct. -/
structure Request where
  req : Option HttpRequest
  res : Option HttpResponse
  header : Option (List (String × String))
  reqbody : String
  resbody : String
  method : String

/-- What lies outside the package when a request is executed. The result
target of `Do` (a Go `interface{}`) has type `τ`. -/
structure World (τ : Type) where
  /-- The number `rand.Intn(n)` draws; it is used modulo `n`. -/
  intn : Nat → Nat
  /-- The clock, `time.Now().Unix()`. -/
  now : Int
  /-- The bytes `rand.Read` writes. -/
  rand : Nat → UInt8
  /-- The error message of `http.NewRequest(method, url, body)`, if it fails. -/
  newRequest : String → String → String → Option String
  /-- The order in which `range` visits the entries of a map. -/
  rangeOrder : List (String × String) → List (String × String)
  /-- Every entry of the map is visited once. -/
  rangeOrder_perm : ∀ m, (rangeOrder m).Perm m
  /-- The call `client.Do(req)`. -/
  clientDo : HttpRequest → ClientResult
  /-- The call `json.Unmarshal(data, result)`: the target afterwards, and the
  text of the error (`err.Error()`) if there is one. -/
  unmarshal : String → τ → τ × Option String

/-- The function `getHost`; `rand.Intn` panics when the list of hosts is
empty. -/
def getHost (opt : Options) (intn : Nat → Nat) : Option String :=
  if opt.Hosts.length = 0 then none
  else opt.Hosts[intn opt.Hosts.length % opt.Hosts.length]?

/-- The function `New`: every field but `method` has its zero value, so the
map `header` is nil. -/
def New : Request :=
  { req := none, res := none, header := none, reqbody := "", resbody := "", method := "GET" }

/-- The method `GetResp`. -/
def Request.GetResp (r : Request) : Option HttpResponse := r.res

/-- The method `GetBody`. -/
def Request.GetBody (r : Request) : String := r.resbody

/-- The assignment `m[k] = v` on a Go map that is not nil. -/
def mapSet (m : List (String × String)) (k v : String) : List (String × String) :=
  (k, v) :: m.filter (fun kv => kv.1 ≠ k)

/-- The value a Go map gives for a key: `m[k]`, with `""` for a key that is
absent; the nil map has no key. -/
def mapGet (m : Option (List (String × String))) (k : String) : String :=
  match (m.getD []).find? (fun kv => kv.1 = k) with
  | some kv => kv.2
  | none => ""

/-- The method `SetHeader`: the request it returns, or `none` when the
assignment `r.header[k] = v` panics because the map is nil. -/
def Request.SetHeader (r : Request) (k v : String) : Option Request :=
  match r.header with
  | none => none
  | some m => some { r with header := some (mapSet m k v) }

/-- The method `Send`, with `json.Marshal` as `marshal` (the bytes it returns,
empty when it fails, and its error, which `Send` drops). -/
def Request.Send {σ : Type} (marshal : σ → String × Option String) (r : Request) (data : σ) :
    Request :=
  { r with reqbody := (marshal data).1 }

/-- Lines 86-92 of `Do`: the request handed to the HTTP client, a new request
with the gate headers and then the entries of the map of `r`, added in the
order in which `range` visits them. -/
def Request.outbound {τ : Type} (opt : Options) (w : World τ) (r : Request) (url : String) :
    HttpRequest :=
  { Method := r.method, URL := url, Body := r.reqbody,
    Header := (w.rangeOrder (r.header.getD [])).foldl (fun h kv => h.Add kv.1 kv.2)
      (addGateHeader opt w.now w.rand Header.empty) }

/-- The method `Do`: the error it returns, the request and the result target
afterwards; `none` when it panics. -/
def Request.Do {τ : Type} (opt : Options) (w : World τ) (r : Request) (path : String)
    (result : τ) : Option (Option GoError × Request × τ) :=
  match getHost opt w.intn with
  | none => none
  | some host =>
    let url := host ++ path
    match w.newRequest r.method url r.reqbody with
    | some e => some (some ⟨ErrorSite.newRequest, e⟩, { r with req := none }, result)
    | none =>
      let sent := r.outbound opt w url
      match w.clientDo sent with
      | ClientResult.failed res e =>
          some (some ⟨ErrorSite.transport, e⟩, { r with req := some sent, res := res }, result)
      | ClientResult.ok res =>
        let r1 : Request := { r with req := some sent, res := some res }
        if res.StatusCode ≠ 200 then
          some (some (Errorf ErrorSite.httpStatus "http status=%d content=%s"
            [Arg.int res.StatusCode, Arg.str r1.resbody]), r1, result)
        else
          let r2 : Request := { r1 with resbody := res.Body.1 }
          match res.Body.2 with
          | some e => some (some ⟨ErrorSite.bodyRead, e⟩, r2, result)
          | none =>
            match w.unmarshal r2.resbody result with
            | (result1, some e) =>
                some (some (Errorf ErrorSite.jsonParse "json parse fail %s" [Arg.str e]), r2, result1)
            | (result1, none) => some (none, r2, result1)

/-- The struct `APIResult`. -/
structure APIResult (τ : Type) where
  Errcode : Int
  Errmsg : String
  Data : τ

/-- The method `DoAPI`: the error it returns, the request and the result
target afterwards; `none` when it panics. -/
def Request.DoAPI {τ : Type} (opt : Options) (w : World τ) (r : Request) (path : String)
    (result : τ) : Option (Option GoError × Request × τ) :=
  let ar : APIResult τ := { Errcode := 0, Errmsg := "", Data := result }
  match r.Do opt w path result with
  | none => none
  | some (some err, r1, result1) => some (some err, r1, result1)
  | some (none, r1, result1) =>
      if ar.Errcode ≠ 0 then
        some (some (Errorf ErrorSite.domain "errcode=%d errmsg=%s"
          [Arg.int ar.Errcode, Arg.str ar.Errmsg]), r1, result1)
      else some (none, r1, result1)

/-! ## Values the theorems are instantiated at -/

/-- A configuration with the default window of 180 seconds. -/
def exampleOptions : Options :=
  { Hosts := ["https://gw.example"], PaasID := "paas", PaasToken := "abc123", MaxRetries := 0,
    TimeOffsetLimit := 180 }

/-- A configuration whose window is the largest `int64`. -/
def widestOptions : Options :=
  { Hosts := ["https://gw.example"], PaasID := "paas", PaasToken := "abc123", MaxRetries := 0,
    TimeOffsetLimit := 9223372036854775807 }

/-- The header of a request signed at time 1700000000 with the token `abc123`
and the nonce `deadbeefcafebabe0011`, without caller identity. -/
def signedHeader : Header :=
  Header.ofList
    [("X-Tif-Timestamp", FormatInt 1700000000), ("X-Tif-Nonce", "deadbeefcafebabe0011"),
     ("X-Tif-Signature", gateSignature (FormatInt 1700000000) "abc123" "deadbeefcafebabe0011")]

/-- The header of a request with a caller identity, whose signature is the one
a signer without identity computes for the nonce `aa,alice,info,x`. -/
def identityHeader : Header :=
  Header.ofList
    [("X-Tif-Timestamp", "1700000000"), ("X-Tif-Nonce", "aa"), ("X-Tif-Uid", "alice"),
     ("X-Tif-Uinfo", "info"), ("X-Tif-Ext", "x"),
     ("X-Tif-Signature", gateSignature "1700000000" "abc123" "aa,alice,info,x")]

/-- The header without caller identity whose nonce holds the identity fields of
`identityHeader`. -/
def foldedHeader : Header :=
  Header.ofList
    [("X-Tif-Timestamp", "1700000000"), ("X-Tif-Nonce", "aa,alice,info,x"),
     ("X-Tif-Signature", gateSignature "1700000000" "abc123" "aa,alice,info,x")]

/-- A character `0`..`9`. -/
def isDecimalDigit (c : Char) : Bool := decide (48 ≤ c.toNat ∧ c.toNat ≤ 57)

/-- The number that decimal digits denote when they follow the number `n`. -/
def decimalValue (n : Nat) (ds : List Char) : Nat :=
  ds.foldl (fun a c => a * 10 + (c.toNat - 48)) n

/-- A configuration with a window of 2000000000 seconds. -/
def wideOptions : Options :=
  { Hosts := ["https://gw.example"], PaasID := "paas", PaasToken := "abc123", MaxRetries := 0,
    TimeOffsetLimit := 2000000000 }

/-- A header whose timestamp is the digit string `9223372036854775808`, one
above the largest `int64`. -/
def outOfRangeHeader : Header :=
  Header.ofList [("X-Tif-Timestamp", "9223372036854775808"), ("X-Tif-Nonce", "aa"),
    ("X-Tif-Signature", "S")]

/-- A world whose gateway answers every request with the status 500 and the
body `oops`; the JSON library is one that fails on every input. -/
def failingWorld : World String :=
  { intn := fun _ => 0, now := 1700000000, rand := fun _ => 7,
    newRequest := fun _ _ _ => none,
    rangeOrder := fun m => m, rangeOrder_perm := fun m => List.Perm.refl m,
    clientDo := fun _ => ClientResult.ok { StatusCode := 500, Body := ("oops", none) },
    unmarshal := fun _ t => (t, some "unexpected end of JSON input") }

/-- A request that is not fresh: an earlier exchange has left a response body
in it. -/
def usedRequest : Request :=
  { req := none, res := none, header := some [("Accept", "application/json")], reqbody := "",
    resbody := "earlier", method := "GET" }

/-- A world whose gateway answers every request with the status 200 and an
envelope that reports the error code 7; the JSON library stores the body it is
given in the target. -/
def envelopeWorld : World String :=
  { intn := fun _ => 0, now := 1700000000, rand := fun _ => 7,
    newRequest := fun _ _ _ => none,
    rangeOrder := fun m => m, rangeOrder_perm := fun m => List.Perm.refl m,
    clientDo := fun _ =>
      ClientResult.ok
        { StatusCode := 200,
          Body := ("\x7b\"errcode\":7,\"errmsg\":\"not found\",\"data\":null\x7d", none) },
    unmarshal := fun body _ => (body, none) }

/-- A world whose gateway answers every request with a redirect: after ten of
them `client.Do` returns the last response, with the status 302, together with
an error. -/
def redirectWorld : World String :=
  { intn := fun _ => 0, now := 1700000000, rand := fun _ => 7,
    newRequest := fun _ _ _ => none,
    rangeOrder := fun m => m, rangeOrder_perm := fun m => List.Perm.refl m,
    clientDo := fun _ =>
      ClientResult.failed (some { StatusCode := 302, Body := ("", none) })
        "Get \"https://gw.example/v1/item\": stopped after 10 redirects",
    unmarshal := fun body _ => (body, none) }

/-- The header of a request with the caller identity of `identityHeader`, whose
signature is the digest of the string without a comma between nonce and uid. -/
def commalessHeader : Header :=
  Header.ofList
    [("X-Tif-Timestamp", "1700000000"), ("X-Tif-Nonce", "aa"), ("X-Tif-Uid", "alice"),
     ("X-Tif-Uinfo", "info"), ("X-Tif-Ext", "x"),
     ("X-Tif-Signature",
       ToUpper (EncodeToString (Sum256 (stringBytes
         ("1700000000" ++ "abc123" ++ "aa" ++ "alice" ++ "," ++ "info" ++ "," ++ "x"
           ++ "1700000000")))))]

/-! ## Decimal text is read back -/

theorem decimalDigit_toNat (d : Nat) (hd : d < 10) : (decimalDigit d).toNat = 48 + d := by
  interval_cases d <;> rfl

theorem decimalDigit_ne_sign (d : Nat) (hd : d < 10) :
    ¬ (decimalDigit d = '+' ∨ decimalDigit d = '-') := by
  interval_cases d <;> decide

theorem parseUintLoop_digit (d : Nat) (hd : d < 10) (rest : List Char) (n : Nat)
    (hn : n * 10 + d ≤ maxUint64) :
    parseUintLoop (decimalDigit d :: rest) n = parseUintLoop rest (n * 10 + d) := by
  have h1 := decimalDigit_toNat d hd
  have h2 : ¬ (n ≥ maxUint64 / 10 + 1) := by
    unfold maxUint64 at *
    omega
  have h3 : ¬ (n * 10 + d > maxUint64) := by omega
  simp only [parseUintLoop, h1]
  rw [if_pos (by omega), if_neg h2]
  simp only [Nat.add_sub_cancel_left]
  rw [if_neg h3]

theorem parseUintLoop_formatBitsLoop (fuel : Nat) :
    ∀ (u : Nat) (acc : List Char), u < fuel → u ≤ maxUint64 →
      parseUintLoop (formatBitsLoop fuel u acc) 0 = parseUintLoop acc u := by
  induction fuel with
  | zero => intro u acc h; omega
  | succ fuel ih =>
    intro u acc hf hu
    unfold formatBitsLoop
    by_cases h10 : u < 10
    · rw [if_pos h10, parseUintLoop_digit u h10 acc 0 (by unfold maxUint64; omega)]
      simp
    · rw [if_neg h10, ih (u / 10) _ (by omega) (by omega),
        parseUintLoop_digit (u % 10) (Nat.mod_lt _ (by decide)) acc (u / 10) (by omega)]
      congr 1
      omega

theorem formatBitsLoop_head (fuel : Nat) :
    ∀ (u : Nat) (acc : List Char), u < fuel →
      ∃ d rest, d < 10 ∧ formatBitsLoop fuel u acc = decimalDigit d :: rest := by
  induction fuel with
  | zero => intro u acc h; omega
  | succ fuel ih =>
    intro u acc hf
    unfold formatBitsLoop
    by_cases h10 : u < 10
    · exact ⟨u, acc, h10, by rw [if_pos h10]⟩
    · rw [if_neg h10]
      exact ih (u / 10) _ (by omega)

theorem ParseUint_formatBits (u : Nat) (hu : u ≤ maxUint64) :
    ParseUint (formatBits u) = (u, none) := by
  obtain ⟨d, rest, _, hrest⟩ := formatBitsLoop_head (u + 1) u [] (by omega)
  have hne : formatBits u ≠ [] := by
    unfold formatBits
    rw [hrest]
    exact List.cons_ne_nil _ _
  unfold ParseUint
  rw [if_neg hne]
  unfold formatBits
  rw [parseUintLoop_formatBitsLoop (u + 1) u [] (by omega) hu]
  rfl

theorem wrapInt64_of_range (x : Int) (hlo : -9223372036854775808 ≤ x)
    (hhi : x ≤ 9223372036854775807) : wrapInt64 x = x := by
  unfold wrapInt64
  omega

theorem ParseInt_FormatInt (t : Int) (hlo : -9223372036854775808 ≤ t)
    (hhi : t ≤ 9223372036854775807) : ParseInt (FormatInt t) = (t, none) := by
  unfold FormatInt
  by_cases hneg : t < 0
  · rw [if_pos hneg]
    have hu : t.natAbs ≤ maxUint64 := by unfold maxUint64; omega
    have hP := ParseUint_formatBits _ hu
    have h1 : ¬ ((t.natAbs : Nat) > 9223372036854775808) := by omega
    have hw : wrapInt64 (-(t.natAbs : Int)) = t := by
      rw [wrapInt64_of_range] <;> omega
    simp only [ParseInt, or_true, if_true, hP, hw]
    simp [h1]
  · rw [if_neg hneg]
    obtain ⟨d, rest, hd, hrest⟩ := formatBitsLoop_head (t.toNat + 1) t.toNat [] (by omega)
    have hu : t.toNat ≤ maxUint64 := by unfold maxUint64; omega
    have hP := ParseUint_formatBits _ hu
    have hform : formatBits t.toNat = decimalDigit d :: rest := hrest
    rw [hform] at hP
    have hs := decimalDigit_ne_sign d hd
    have hm : decimalDigit d ≠ '-' := fun h => hs (Or.inr h)
    have h1 : ¬ (t.toNat ≥ 9223372036854775808) := by omega
    have hw : wrapInt64 (t.toNat : Int) = t := by
      rw [wrapInt64_of_range] <;> omega
    simp only [ParseInt, hform, if_neg hs, hP, hw]
    simp [hm, h1]

/-! ## Formatted text -/

theorem Sprintf_four (a b c d : String) :
    Sprintf "%s%s%s%s" [Arg.str a, Arg.str b, Arg.str c, Arg.str d] = a ++ b ++ c ++ d := by
  simp [Sprintf, sprintfChars, String.ext_iff]

theorem Sprintf_seven (ts token nonce uid uinfo ext : String) :
    Sprintf "%s%s%s,%s,%s,%s%s"
        [Arg.str ts, Arg.str token, Arg.str nonce, Arg.str uid, Arg.str uinfo, Arg.str ext,
         Arg.str ts]
      = ts ++ token ++ nonce ++ "," ++ uid ++ "," ++ uinfo ++ "," ++ ext ++ ts := by
  simp [Sprintf, sprintfChars, String.ext_iff]

theorem Sprintf_hex (v : List UInt8) : Sprintf "%x" [Arg.bytes v] = EncodeToString v := by
  simp [Sprintf, sprintfChars, String.ext_iff]

theorem Sprintf_timeOffset (ts : String) (now : Int) :
    Sprintf "Header time offset exceeded limit, timestamp=%s now=%d" [Arg.str ts, Arg.int now]
      = "Header time offset exceeded limit, timestamp=" ++ ts ++ " now=" ++ FormatInt now := by
  simp [Sprintf, sprintfChars, String.ext_iff]

theorem Sprintf_signatureInvalid (uid uinfo ext ts nonce sign : String) :
    Sprintf "signature invalid, uid=%s uinfo=%s ext=%s timestamp=%s nonce=%s signature=%s"
        [Arg.str uid, Arg.str uinfo, Arg.str ext, Arg.str ts, Arg.str nonce, Arg.str sign]
      = "signature invalid, uid=" ++ uid ++ " uinfo=" ++ uinfo ++ " ext=" ++ ext
          ++ " timestamp=" ++ ts ++ " nonce=" ++ nonce ++ " signature=" ++ sign := by
  simp [Sprintf, sprintfChars, String.ext_iff]

theorem Sprintf_httpStatus (code : Int) (content : String) :
    Sprintf "http status=%d content=%s" [Arg.int code, Arg.str content]
      = "http status=" ++ FormatInt code ++ " content=" ++ content := by
  simp [Sprintf, sprintfChars, String.ext_iff]

/-! ## The shape of a signature -/

theorem Sum256_length (data : List UInt8) : (Sum256 data).length = 32 := by
  simp [Sum256, wordBytes]

theorem EncodeToString_length (b : List UInt8) : (EncodeToString b).length = 2 * b.length := by
  induction b with
  | nil => rfl
  | cons x xs ih =>
    simp only [EncodeToString, String.length, List.flatMap_cons, List.length_append,
      List.length_cons] at ih ⊢
    simp only [hexByte, List.length_cons, List.length_nil]
    omega

theorem ToUpper_length (s : String) : (ToUpper s).length = s.length := by
  show (s.data.map Char.toUpper).length = s.data.length
  exact List.length_map _ _

theorem hexDigit_toUpper_mem (n : Nat) (hn : n < 16) :
    (hexDigit n).toUpper ∈ "0123456789ABCDEF".data := by
  interval_cases n <;> decide

theorem ToUpper_EncodeToString_mem (b : List UInt8) :
    ∀ c ∈ (ToUpper (EncodeToString b)).data, c ∈ "0123456789ABCDEF".data := by
  intro c hc
  simp only [ToUpper, EncodeToString, List.mem_map, List.mem_flatMap] at hc
  obtain ⟨c0, ⟨x, _, hx⟩, rfl⟩ := hc
  have hlt : x.toNat < 256 := x.val.isLt
  simp only [hexByte, List.mem_cons, List.mem_singleton, List.mem_nil_iff, or_false] at hx
  rcases hx with rfl | rfl
  · exact hexDigit_toUpper_mem _ (by omega)
  · exact hexDigit_toUpper_mem _ (by omega)

/-! ## The keys of the source are canonical -/

@[simp] theorem canonical_paasid :
    CanonicalMIMEHeaderKey "X-Tif-Paasid" = "X-Tif-Paasid" := by decide

@[simp] theorem canonical_timestamp :
    CanonicalMIMEHeaderKey "X-Tif-Timestamp" = "X-Tif-Timestamp" := by decide

@[simp] theorem canonical_nonce :
    CanonicalMIMEHeaderKey "X-Tif-Nonce" = "X-Tif-Nonce" := by decide

@[simp] theorem canonical_signature :
    CanonicalMIMEHeaderKey "X-Tif-Signature" = "X-Tif-Signature" := by decide

@[simp] theorem canonical_uid :
    CanonicalMIMEHeaderKey "X-Tif-Uid" = "X-Tif-Uid" := by decide

@[simp] theorem canonical_uinfo :
    CanonicalMIMEHeaderKey "X-Tif-Uinfo" = "X-Tif-Uinfo" := by decide

@[simp] theorem canonical_ext :
    CanonicalMIMEHeaderKey "X-Tif-Ext" = "X-Tif-Ext" := by decide

/-- A key in lower case is stored under its canonical form. -/
theorem canonical_examples :
    CanonicalMIMEHeaderKey "accept" = "Accept"
    ∧ CanonicalMIMEHeaderKey "x-tif-uid" = "X-Tif-Uid"
    ∧ CanonicalMIMEHeaderKey "CONTENT-type" = "Content-Type"
    ∧ CanonicalMIMEHeaderKey "bad key" = "bad key"
    ∧ (Header.empty.Add "accept" "a").Get "Accept" = "a" := by
  decide

/-! ## `AuthSign` unfolded -/

theorem authSignData_eq (token uid uinfo ext ts nonce : String) :
    authSignData token uid uinfo ext ts nonce =
      if uid ≠ "" then ts ++ token ++ nonce ++ "," ++ uid ++ "," ++ uinfo ++ "," ++ ext ++ ts
      else ts ++ token ++ nonce ++ ts := by
  unfold authSignData
  rw [Sprintf_seven, Sprintf_four]

theorem gateSignature_eq (ts token nonce : String) :
    gateSignature ts token nonce
      = ToUpper (EncodeToString (Sum256 (stringBytes (ts ++ token ++ nonce ++ ts)))) := by
  unfold gateSignature
  simp only [Sprintf_four, Sprintf_hex]

theorem AuthSign_eq (opt : Options) (now : Int) (h : Header) :
    AuthSign opt now h =
      if timeOffsetExceeded opt now (ParseInt (h.Get "X-Tif-Timestamp")).1 = true then
        some ⟨ErrorSite.timeOffset,
          "Header time offset exceeded limit, timestamp=" ++ h.Get "X-Tif-Timestamp"
            ++ " now=" ++ FormatInt now⟩
      else if ToUpper (EncodeToString (Sum256 (stringBytes
          (authSignData opt.PaasToken (h.Get "X-Tif-Uid") (h.Get "X-Tif-Uinfo")
            (h.Get "X-Tif-Ext") (h.Get "X-Tif-Timestamp") (h.Get "X-Tif-Nonce")))))
          = h.Get "X-Tif-Signature" then none
      else
        some ⟨ErrorSite.signatureInvalid,
          "signature invalid, uid=" ++ h.Get "X-Tif-Uid" ++ " uinfo=" ++ h.Get "X-Tif-Uinfo"
            ++ " ext=" ++ h.Get "X-Tif-Ext" ++ " timestamp=" ++ h.Get "X-Tif-Timestamp"
            ++ " nonce=" ++ h.Get "X-Tif-Nonce" ++ " signature=" ++ h.Get "X-Tif-Signature"⟩ := by
  simp only [AuthSign, Errorf, Sprintf_hex, Sprintf_timeOffset, Sprintf_signatureInvalid]

theorem timeOffsetExceeded_iff (opt : Options) (now t : Int)
    (hlo : -9223372036854775808 ≤ now - opt.TimeOffsetLimit)
    (hlo2 : now - opt.TimeOffsetLimit ≤ 9223372036854775807)
    (hhi : now + opt.TimeOffsetLimit ≤ 9223372036854775807)
    (hhi2 : -9223372036854775808 ≤ now + opt.TimeOffsetLimit) :
    timeOffsetExceeded opt now t = true
      ↔ (t < now - opt.TimeOffsetLimit ∨ t > now + opt.TimeOffsetLimit) := by
  unfold timeOffsetExceeded
  rw [wrapInt64_of_range _ hlo hlo2, wrapInt64_of_range _ hhi2 hhi]
  simp

/-! ## The claims -/

/-- C1, counterexample. With the window 9223372036854775807 and the clock at
1700000000, the timestamp 1700000000 satisfies `now - w <= t <= now + w`, the
request carries the signature `addGateHeader` computes and no uid, and
`AuthSign` still returns the time-offset error: `now + w` overflows `int64`. -/
theorem roundtrip_rejected_when_bound_overflows :
    (0 ≤ widestOptions.TimeOffsetLimit
      ∧ 1700000000 - widestOptions.TimeOffsetLimit ≤ 1700000000
      ∧ (1700000000 : Int) ≤ 1700000000 + widestOptions.TimeOffsetLimit
      ∧ signedHeader.Get "X-Tif-Timestamp" = FormatInt 1700000000
      ∧ signedHeader.Get "X-Tif-Nonce" = "deadbeefcafebabe0011"
      ∧ signedHeader.Get "X-Tif-Signature"
          = gateSignature (FormatInt 1700000000) widestOptions.PaasToken "deadbeefcafebabe0011"
      ∧ signedHeader.Get "X-Tif-Uid" = "")
    ∧ AuthSign widestOptions 1700000000 signedHeader
        = some ⟨ErrorSite.timeOffset,
            "Header time offset exceeded limit, timestamp=1700000000 now=1700000000"⟩ :=
  ⟨⟨by decide, by decide, by decide, rfl, rfl, rfl, rfl⟩, by decide⟩

/-- C1, amended. Round trip sign -> verify: for every token, nonce, window,
clock value `now` and timestamp `t` with `now - w <= t <= now + w`, where
`now - w` and `now + w` do not leave the `int64` range (this makes `w >= 0`),
a request that carries the decimal rendering of `t`, the nonce, the signature
`addGateHeader` computes for them and no uid is accepted by `AuthSign`; so is
the header `addGateHeader` itself builds at time `t`. -/
theorem sign_verify_roundtrip (opt : Options) (now t : Int) (nonce : String) (h : Header)
    (hlo : -9223372036854775808 ≤ now - opt.TimeOffsetLimit)
    (hhi : now + opt.TimeOffsetLimit ≤ 9223372036854775807)
    (hwin : now - opt.TimeOffsetLimit ≤ t ∧ t ≤ now + opt.TimeOffsetLimit)
    (hts : h.Get "X-Tif-Timestamp" = FormatInt t)
    (hnonce : h.Get "X-Tif-Nonce" = nonce)
    (hsig : h.Get "X-Tif-Signature" = gateSignature (FormatInt t) opt.PaasToken nonce)
    (huid : h.Get "X-Tif-Uid" = "") :
    AuthSign opt now h = none
      ∧ ∀ rand : Nat → UInt8, AuthSign opt now (addGateHeader opt t rand Header.empty) = none := by
  have key : ∀ (g : Header) (n : String), g.Get "X-Tif-Timestamp" = FormatInt t →
      g.Get "X-Tif-Nonce" = n →
      g.Get "X-Tif-Signature" = gateSignature (FormatInt t) opt.PaasToken n →
      g.Get "X-Tif-Uid" = "" → AuthSign opt now g = none := by
    intro g n h1 h2 h3 h4
    have hparse : ParseInt (FormatInt t) = (t, none) :=
      ParseInt_FormatInt t (by omega) (by omega)
    have hwindow : ¬ (timeOffsetExceeded opt now t = true) := by
      rw [timeOffsetExceeded_iff opt now t hlo (by omega) hhi (by omega)]
      omega
    rw [AuthSign_eq, h1, h2, h3, h4, hparse, if_neg hwindow, authSignData_eq, gateSignature_eq]
    simp
  refine ⟨key h nonce hts hnonce hsig huid, fun rand => ?_⟩
  apply key _ (GenerateRandomStringHex rand 10) <;>
    simp [addGateHeader, Header.Add, Header.Get, Header.empty]

/-- C1, witness: the window of 180 seconds, the clock 100 seconds after the
timestamp. -/
theorem sign_verify_roundtrip_witness :
    AuthSign exampleOptions 1700000100 signedHeader = none
      ∧ ∀ rand : Nat → UInt8,
          AuthSign exampleOptions 1700000100
            (addGateHeader exampleOptions 1700000000 rand Header.empty) = none :=
  sign_verify_roundtrip exampleOptions 1700000100 1700000000 "deadbeefcafebabe0011" signedHeader
    (by decide) (by decide) (by decide) rfl rfl rfl rfl

/-- C2, counterexample. With the window 9223372036854775807 and the clock at
1700000000 the parsed timestamp 1700000000 lies between `now - w` and
`now + w`, and `AuthSign` returns the time-offset error: the bound `now + w`
it computes has overflowed `int64`. -/
theorem window_accepts_fails_when_bound_overflows :
    (1700000000 - widestOptions.TimeOffsetLimit ≤ (ParseInt (signedHeader.Get "X-Tif-Timestamp")).1
      ∧ (ParseInt (signedHeader.Get "X-Tif-Timestamp")).1
          ≤ 1700000000 + widestOptions.TimeOffsetLimit)
    ∧ AuthSign widestOptions 1700000000 signedHeader
        = some ⟨ErrorSite.timeOffset,
            "Header time offset exceeded limit, timestamp=1700000000 now=1700000000"⟩ :=
  ⟨⟨by decide, by decide⟩, by decide⟩

/-- C2, amended. Timestamp window of `AuthSign`: for every clock value `now`
and window `w` such that `now - w` and `now + w` lie in the `int64` range, and
every request, whose parsed timestamp is `t`: if `now - w <= t <= now + w` then
`AuthSign` does not return the time-offset error and its result is that of the
signature check; if `t < now - w` or `t > now + w` then `AuthSign` returns the
time-offset error, whatever the signature header is. -/
theorem authSign_time_window (opt : Options) (now : Int) (h : Header)
    (hlo : -9223372036854775808 ≤ now - opt.TimeOffsetLimit
      ∧ now - opt.TimeOffsetLimit ≤ 9223372036854775807)
    (hhi : -9223372036854775808 ≤ now + opt.TimeOffsetLimit
      ∧ now + opt.TimeOffsetLimit ≤ 9223372036854775807) :
    (now - opt.TimeOffsetLimit ≤ (ParseInt (h.Get "X-Tif-Timestamp")).1
        ∧ (ParseInt (h.Get "X-Tif-Timestamp")).1 ≤ now + opt.TimeOffsetLimit →
      (∀ m, AuthSign opt now h ≠ some ⟨ErrorSite.timeOffset, m⟩)
        ∧ (AuthSign opt now h = none ↔
            h.Get "X-Tif-Signature" = ToUpper (EncodeToString (Sum256 (stringBytes
              (authSignData opt.PaasToken (h.Get "X-Tif-Uid") (h.Get "X-Tif-Uinfo")
                (h.Get "X-Tif-Ext") (h.Get "X-Tif-Timestamp") (h.Get "X-Tif-Nonce")))))))
    ∧ ((ParseInt (h.Get "X-Tif-Timestamp")).1 < now - opt.TimeOffsetLimit
        ∨ (ParseInt (h.Get "X-Tif-Timestamp")).1 > now + opt.TimeOffsetLimit →
      AuthSign opt now h
        = some ⟨ErrorSite.timeOffset,
            "Header time offset exceeded limit, timestamp=" ++ h.Get "X-Tif-Timestamp"
              ++ " now=" ++ FormatInt now⟩) := by
  have hiff := timeOffsetExceeded_iff opt now (ParseInt (h.Get "X-Tif-Timestamp")).1
    hlo.1 hlo.2 hhi.2 hhi.1
  constructor
  · intro hin
    have hwindow : ¬ (timeOffsetExceeded opt now (ParseInt (h.Get "X-Tif-Timestamp")).1 = true) := by
      rw [hiff]
      omega
    rw [AuthSign_eq, if_neg hwindow]
    constructor
    · intro m
      split_ifs <;> simp
    · split_ifs with heq
      · simp [heq]
      · simp only [reduceCtorEq, false_iff]
        exact fun hs => heq hs.symm
  · intro hout
    rw [AuthSign_eq, if_pos (hiff.mpr hout)]

/-- C2, witness: the window of 180 seconds around the clock value 1700000100
and the header signed at 1700000000. -/
theorem authSign_time_window_witness :
    (1700000100 - exampleOptions.TimeOffsetLimit ≤ (ParseInt (signedHeader.Get "X-Tif-Timestamp")).1
        ∧ (ParseInt (signedHeader.Get "X-Tif-Timestamp")).1
            ≤ 1700000100 + exampleOptions.TimeOffsetLimit →
      (∀ m, AuthSign exampleOptions 1700000100 signedHeader ≠ some ⟨ErrorSite.timeOffset, m⟩)
        ∧ (AuthSign exampleOptions 1700000100 signedHeader = none ↔
            signedHeader.Get "X-Tif-Signature" = ToUpper (EncodeToString (Sum256 (stringBytes
              (authSignData exampleOptions.PaasToken (signedHeader.Get "X-Tif-Uid")
                (signedHeader.Get "X-Tif-Uinfo") (signedHeader.Get "X-Tif-Ext")
                (signedHeader.Get "X-Tif-Timestamp") (signedHeader.Get "X-Tif-Nonce")))))))
    ∧ ((ParseInt (signedHeader.Get "X-Tif-Timestamp")).1 < 1700000100 - exampleOptions.TimeOffsetLimit
        ∨ (ParseInt (signedHeader.Get "X-Tif-Timestamp")).1
            > 1700000100 + exampleOptions.TimeOffsetLimit →
      AuthSign exampleOptions 1700000100 signedHeader
        = some ⟨ErrorSite.timeOffset,
            "Header time offset exceeded limit, timestamp="
              ++ signedHeader.Get "X-Tif-Timestamp" ++ " now=" ++ FormatInt 1700000100⟩) :=
  authSign_time_window exampleOptions 1700000100 signedHeader
    ⟨by decide, by decide⟩ ⟨by decide, by decide⟩

set_option maxRecDepth 100000 in
theorem commalessHeader_rejected :
    (AuthSign exampleOptions 1700000100 commalessHeader).map GoError.site
      = some ErrorSite.signatureInvalid := by
  decide

/-- C3, counterexample. For the token `abc123`, the timestamp `1700000000`, the
nonce `aa`, the uid `alice`, the uinfo `info` and the ext `x` the string
`AuthSign` hashes is `1700000000abc123aa,alice,info,x1700000000`, with a comma
between nonce and uid; it is not the string
`timestamp ++ token ++ nonce ++ uid ++ "," ++ uinfo ++ "," ++ ext ++ timestamp`
of the claim, and a request whose signature is the upper-cased hexadecimal
SHA-256 digest of the claim's string gets the signature-invalid error. -/
theorem canonical_string_has_comma_after_nonce :
    identityHeader.Get "X-Tif-Uid" ≠ ""
    ∧ authSignData exampleOptions.PaasToken (identityHeader.Get "X-Tif-Uid")
          (identityHeader.Get "X-Tif-Uinfo") (identityHeader.Get "X-Tif-Ext")
          (identityHeader.Get "X-Tif-Timestamp") (identityHeader.Get "X-Tif-Nonce")
        = "1700000000abc123aa,alice,info,x1700000000"
    ∧ authSignData exampleOptions.PaasToken (identityHeader.Get "X-Tif-Uid")
          (identityHeader.Get "X-Tif-Uinfo") (identityHeader.Get "X-Tif-Ext")
          (identityHeader.Get "X-Tif-Timestamp") (identityHeader.Get "X-Tif-Nonce")
        ≠ identityHeader.Get "X-Tif-Timestamp" ++ exampleOptions.PaasToken
            ++ identityHeader.Get "X-Tif-Nonce" ++ identityHeader.Get "X-Tif-Uid" ++ ","
            ++ identityHeader.Get "X-Tif-Uinfo" ++ "," ++ identityHeader.Get "X-Tif-Ext"
            ++ identityHeader.Get "X-Tif-Timestamp"
    ∧ commalessHeader.Get "X-Tif-Signature"
        = ToUpper (EncodeToString (Sum256 (stringBytes
            (commalessHeader.Get "X-Tif-Timestamp" ++ exampleOptions.PaasToken
              ++ commalessHeader.Get "X-Tif-Nonce" ++ commalessHeader.Get "X-Tif-Uid" ++ ","
              ++ commalessHeader.Get "X-Tif-Uinfo" ++ "," ++ commalessHeader.Get "X-Tif-Ext"
              ++ commalessHeader.Get "X-Tif-Timestamp"))))
    ∧ (AuthSign exampleOptions 1700000100 commalessHeader).map GoError.site
        = some ErrorSite.signatureInvalid :=
  ⟨by decide, by decide, by decide, rfl, commalessHeader_rejected⟩

/-- C3, amended. Canonical string of the verifier: the string `AuthSign` hashes is
`timestamp ++ token ++ nonce ++ "," ++ uid ++ "," ++ uinfo ++ "," ++ ext ++ timestamp`
when the uid header is non-empty and `timestamp ++ token ++ nonce ++ timestamp`
when it is empty, which is the string the outbound signer hashes; `AuthSign`
accepts exactly when its time test passes and the signature header equals the
upper-cased hexadecimal SHA-256 digest of that string. -/
theorem authSign_canonical_string (opt : Options) (now : Int) (h : Header) :
    authSignData opt.PaasToken (h.Get "X-Tif-Uid") (h.Get "X-Tif-Uinfo") (h.Get "X-Tif-Ext")
        (h.Get "X-Tif-Timestamp") (h.Get "X-Tif-Nonce")
      = (if h.Get "X-Tif-Uid" ≠ "" then
          h.Get "X-Tif-Timestamp" ++ opt.PaasToken ++ h.Get "X-Tif-Nonce" ++ ","
            ++ h.Get "X-Tif-Uid" ++ "," ++ h.Get "X-Tif-Uinfo" ++ "," ++ h.Get "X-Tif-Ext"
            ++ h.Get "X-Tif-Timestamp"
        else
          h.Get "X-Tif-Timestamp" ++ opt.PaasToken ++ h.Get "X-Tif-Nonce"
            ++ h.Get "X-Tif-Timestamp")
    ∧ (h.Get "X-Tif-Uid" = "" →
        ToUpper (EncodeToString (Sum256 (stringBytes
          (authSignData opt.PaasToken (h.Get "X-Tif-Uid") (h.Get "X-Tif-Uinfo")
            (h.Get "X-Tif-Ext") (h.Get "X-Tif-Timestamp") (h.Get "X-Tif-Nonce")))))
          = gateSignature (h.Get "X-Tif-Timestamp") opt.PaasToken (h.Get "X-Tif-Nonce"))
    ∧ (AuthSign opt now h = none ↔
        timeOffsetExceeded opt now (ParseInt (h.Get "X-Tif-Timestamp")).1 = false
          ∧ h.Get "X-Tif-Signature" = ToUpper (EncodeToString (Sum256 (stringBytes
              (if h.Get "X-Tif-Uid" ≠ "" then
                h.Get "X-Tif-Timestamp" ++ opt.PaasToken ++ h.Get "X-Tif-Nonce" ++ ","
                  ++ h.Get "X-Tif-Uid" ++ "," ++ h.Get "X-Tif-Uinfo" ++ ","
                  ++ h.Get "X-Tif-Ext" ++ h.Get "X-Tif-Timestamp"
              else
                h.Get "X-Tif-Timestamp" ++ opt.PaasToken ++ h.Get "X-Tif-Nonce"
                  ++ h.Get "X-Tif-Timestamp"))))) := by
  refine ⟨authSignData_eq _ _ _ _ _ _, ?_, ?_⟩
  · intro hu
    rw [authSignData_eq, gateSignature_eq, hu]
    simp
  · rw [AuthSign_eq, ← authSignData_eq]
    generalize ToUpper (EncodeToString (Sum256 (stringBytes
      (authSignData opt.PaasToken (h.Get "X-Tif-Uid") (h.Get "X-Tif-Uinfo") (h.Get "X-Tif-Ext")
        (h.Get "X-Tif-Timestamp") (h.Get "X-Tif-Nonce"))))) = expected
    by_cases hw : timeOffsetExceeded opt now (ParseInt (h.Get "X-Tif-Timestamp")).1 = true
    · rw [if_pos hw]
      simp [hw]
    · rw [if_neg hw]
      have hf : timeOffsetExceeded opt now (ParseInt (h.Get "X-Tif-Timestamp")).1 = false := by
        simpa using hw
      by_cases heq : expected = h.Get "X-Tif-Signature"
      · rw [if_pos heq]
        exact ⟨fun _ => ⟨hf, heq.symm⟩, fun _ => rfl⟩
      · rw [if_neg heq]
        constructor
        · intro hn
          exact absurd hn (by simp)
        · intro hn
          exact absurd hn.2.symm heq

set_option maxRecDepth 100000 in
theorem gateSignature_golden :
    gateSignature (FormatInt 1700000000) "abc123" "deadbeefcafebabe0011"
      = "440A7B51FF9EAA5585440F23B46E2945F3943CF55E9A400FE30C50CED04DE21A" := by
  decide

/-- C4. Outbound signature: the `X-Tif-Signature` value `addGateHeader`
attaches is `gateSignature` of the decimal timestamp, the token and the nonce,
whatever the rest of the configuration and of the header; for every timestamp,
token and nonce it is the upper-cased hexadecimal SHA-256 digest of
`decimal(ts) ++ token ++ nonce ++ decimal(ts)`, has exactly 64 characters, and
each of them is one of `0`-`9`, `A`-`F`. For the token `abc123`, the timestamp
1700000000 and the nonce `deadbeefcafebabe0011` the string hashed is
`1700000000abc123deadbeefcafebabe00111700000000`. -/
theorem addGateHeader_signature (opt : Options) (ts : Int) (rand : Nat → UInt8) (h : Header)
    (token nonce : String) :
    (addGateHeader opt ts rand h) "X-Tif-Signature"
        = h "X-Tif-Signature"
            ++ [gateSignature (FormatInt ts) opt.PaasToken (GenerateRandomStringHex rand 10)]
    ∧ (addGateHeader opt ts rand Header.empty).Get "X-Tif-Signature"
        = gateSignature (FormatInt ts) opt.PaasToken (GenerateRandomStringHex rand 10)
    ∧ gateSignature (FormatInt ts) token nonce
        = ToUpper (EncodeToString (Sum256 (stringBytes
            (FormatInt ts ++ token ++ nonce ++ FormatInt ts))))
    ∧ (gateSignature (FormatInt ts) token nonce).length = 64
    ∧ (∀ c ∈ (gateSignature (FormatInt ts) token nonce).data, c ∈ "0123456789ABCDEF".data)
    ∧ FormatInt 1700000000 ++ "abc123" ++ "deadbeefcafebabe0011" ++ FormatInt 1700000000
        = "1700000000abc123deadbeefcafebabe00111700000000"
    ∧ gateSignature (FormatInt 1700000000) "abc123" "deadbeefcafebabe0011"
        = "440A7B51FF9EAA5585440F23B46E2945F3943CF55E9A400FE30C50CED04DE21A" := by
  refine ⟨?_, ?_, gateSignature_eq _ _ _, ?_, ?_, by decide, gateSignature_golden⟩
  · simp [addGateHeader, Header.Add]
  · simp [addGateHeader, Header.Add, Header.Get, Header.empty]
  · rw [gateSignature_eq, ToUpper_length, EncodeToString_length, Sum256_length]
  · rw [gateSignature_eq]
    exact ToUpper_EncodeToString_mem _

theorem AuthSign_after_time_test (opt : Options) (now : Int) (h : Header) :
    (timeOffsetExceeded opt now (ParseInt (h.Get "X-Tif-Timestamp")).1 = false →
      (AuthSign opt now h = none ↔
          h.Get "X-Tif-Signature" = ToUpper (EncodeToString (Sum256 (stringBytes
            (authSignData opt.PaasToken (h.Get "X-Tif-Uid") (h.Get "X-Tif-Uinfo")
              (h.Get "X-Tif-Ext") (h.Get "X-Tif-Timestamp") (h.Get "X-Tif-Nonce"))))))
        ∧ (h.Get "X-Tif-Signature" ≠ ToUpper (EncodeToString (Sum256 (stringBytes
            (authSignData opt.PaasToken (h.Get "X-Tif-Uid") (h.Get "X-Tif-Uinfo")
              (h.Get "X-Tif-Ext") (h.Get "X-Tif-Timestamp") (h.Get "X-Tif-Nonce"))))) →
          AuthSign opt now h
            = some ⟨ErrorSite.signatureInvalid,
                "signature invalid, uid=" ++ h.Get "X-Tif-Uid" ++ " uinfo=" ++ h.Get "X-Tif-Uinfo"
                  ++ " ext=" ++ h.Get "X-Tif-Ext" ++ " timestamp=" ++ h.Get "X-Tif-Timestamp"
                  ++ " nonce=" ++ h.Get "X-Tif-Nonce" ++ " signature="
                  ++ h.Get "X-Tif-Signature"⟩))
    ∧ (AuthSign opt now h = none
        ∨ (∃ m, AuthSign opt now h = some ⟨ErrorSite.timeOffset, m⟩)
        ∨ (∃ m, AuthSign opt now h = some ⟨ErrorSite.signatureInvalid, m⟩)) := by
  rw [AuthSign_eq]
  generalize ToUpper (EncodeToString (Sum256 (stringBytes
    (authSignData opt.PaasToken (h.Get "X-Tif-Uid") (h.Get "X-Tif-Uinfo") (h.Get "X-Tif-Ext")
      (h.Get "X-Tif-Timestamp") (h.Get "X-Tif-Nonce"))))) = expected
  constructor
  · intro hw
    rw [hw]
    simp only [Bool.false_eq_true, if_false]
    by_cases heq : expected = h.Get "X-Tif-Signature"
    · rw [if_pos heq]
      exact ⟨⟨fun _ => heq.symm, fun _ => rfl⟩, fun hne => absurd heq.symm hne⟩
    · rw [if_neg heq]
      exact ⟨⟨fun hn => absurd hn (by simp), fun hs => absurd hs.symm heq⟩, fun _ => rfl⟩
  · split_ifs
    · exact Or.inr (Or.inl ⟨_, rfl⟩)
    · exact Or.inl rfl
    · exact Or.inr (Or.inr ⟨_, rfl⟩)

theorem signedHeader_signature :
    signedHeader.Get "X-Tif-Signature"
      = ToUpper (EncodeToString (Sum256 (stringBytes
          (authSignData "abc123" (signedHeader.Get "X-Tif-Uid") (signedHeader.Get "X-Tif-Uinfo")
            (signedHeader.Get "X-Tif-Ext") (signedHeader.Get "X-Tif-Timestamp")
            (signedHeader.Get "X-Tif-Nonce"))))) := by
  have hs : signedHeader.Get "X-Tif-Signature"
      = gateSignature (FormatInt 1700000000) "abc123" "deadbeefcafebabe0011" := rfl
  have hu : signedHeader.Get "X-Tif-Uid" = "" := rfl
  have ht : signedHeader.Get "X-Tif-Timestamp" = FormatInt 1700000000 := rfl
  have hn : signedHeader.Get "X-Tif-Nonce" = "deadbeefcafebabe0011" := rfl
  rw [hs, hu, ht, hn, gateSignature_eq, authSignData_eq]
  simp

/-- C5, counterexample. With the window 9223372036854775807 and the clock at
1700000000 the timestamp 1700000000 of the request is inside the window
`now - w <= t <= now + w` and its signature header is equal to the recomputed
signature, yet `AuthSign` does not return nil: it returns the time-offset
error, because the bound `now + w` has overflowed `int64`. -/
theorem signature_step_fails_when_bound_overflows :
    (1700000000 - widestOptions.TimeOffsetLimit ≤ (ParseInt (signedHeader.Get "X-Tif-Timestamp")).1
      ∧ (ParseInt (signedHeader.Get "X-Tif-Timestamp")).1
          ≤ 1700000000 + widestOptions.TimeOffsetLimit)
    ∧ signedHeader.Get "X-Tif-Signature"
        = ToUpper (EncodeToString (Sum256 (stringBytes
            (authSignData widestOptions.PaasToken (signedHeader.Get "X-Tif-Uid")
              (signedHeader.Get "X-Tif-Uinfo") (signedHeader.Get "X-Tif-Ext")
              (signedHeader.Get "X-Tif-Timestamp") (signedHeader.Get "X-Tif-Nonce")))))
    ∧ AuthSign widestOptions 1700000000 signedHeader ≠ none
    ∧ (AuthSign widestOptions 1700000000 signedHeader).map GoError.site
        = some ErrorSite.timeOffset :=
  ⟨⟨by decide, by decide⟩, signedHeader_signature, by decide, by decide⟩

/-- C5, amended. Signature step of `AuthSign`: for every request whose parsed
timestamp `t` is inside the window `now - w <= t <= now + w`, where `now - w`
and `now + w` lie in the `int64` range, the result is nil if and only if the
`X-Tif-Signature` header is equal, as a string, to the recomputed signature,
and otherwise it is the signature-invalid error, whose message carries the
uid, uinfo, ext, timestamp, nonce and signature headers. The same holds for
every request that passes the time test of line 152, whatever the bounds. On
every request `AuthSign` returns nil, the time-offset error or the
signature-invalid error. -/
theorem authSign_signature_step (opt : Options) (now : Int) (h : Header) :
    ((-9223372036854775808 ≤ now - opt.TimeOffsetLimit
          ∧ now - opt.TimeOffsetLimit ≤ 9223372036854775807) →
      (-9223372036854775808 ≤ now + opt.TimeOffsetLimit
          ∧ now + opt.TimeOffsetLimit ≤ 9223372036854775807) →
      (now - opt.TimeOffsetLimit ≤ (ParseInt (h.Get "X-Tif-Timestamp")).1
          ∧ (ParseInt (h.Get "X-Tif-Timestamp")).1 ≤ now + opt.TimeOffsetLimit) →
      (AuthSign opt now h = none ↔
          h.Get "X-Tif-Signature" = ToUpper (EncodeToString (Sum256 (stringBytes
            (authSignData opt.PaasToken (h.Get "X-Tif-Uid") (h.Get "X-Tif-Uinfo")
              (h.Get "X-Tif-Ext") (h.Get "X-Tif-Timestamp") (h.Get "X-Tif-Nonce"))))))
        ∧ (h.Get "X-Tif-Signature" ≠ ToUpper (EncodeToString (Sum256 (stringBytes
            (authSignData opt.PaasToken (h.Get "X-Tif-Uid") (h.Get "X-Tif-Uinfo")
              (h.Get "X-Tif-Ext") (h.Get "X-Tif-Timestamp") (h.Get "X-Tif-Nonce"))))) →
          AuthSign opt now h
            = some ⟨ErrorSite.signatureInvalid,
                "signature invalid, uid=" ++ h.Get "X-Tif-Uid" ++ " uinfo=" ++ h.Get "X-Tif-Uinfo"
                  ++ " ext=" ++ h.Get "X-Tif-Ext" ++ " timestamp=" ++ h.Get "X-Tif-Timestamp"
                  ++ " nonce=" ++ h.Get "X-Tif-Nonce" ++ " signature="
                  ++ h.Get "X-Tif-Signature"⟩))
    ∧ (timeOffsetExceeded opt now (ParseInt (h.Get "X-Tif-Timestamp")).1 = false →
      (AuthSign opt now h = none ↔
          h.Get "X-Tif-Signature" = ToUpper (EncodeToString (Sum256 (stringBytes
            (authSignData opt.PaasToken (h.Get "X-Tif-Uid") (h.Get "X-Tif-Uinfo")
              (h.Get "X-Tif-Ext") (h.Get "X-Tif-Timestamp") (h.Get "X-Tif-Nonce"))))))
        ∧ (h.Get "X-Tif-Signature" ≠ ToUpper (EncodeToString (Sum256 (stringBytes
            (authSignData opt.PaasToken (h.Get "X-Tif-Uid") (h.Get "X-Tif-Uinfo")
              (h.Get "X-Tif-Ext") (h.Get "X-Tif-Timestamp") (h.Get "X-Tif-Nonce"))))) →
          AuthSign opt now h
            = some ⟨ErrorSite.signatureInvalid,
                "signature invalid, uid=" ++ h.Get "X-Tif-Uid" ++ " uinfo=" ++ h.Get "X-Tif-Uinfo"
                  ++ " ext=" ++ h.Get "X-Tif-Ext" ++ " timestamp=" ++ h.Get "X-Tif-Timestamp"
                  ++ " nonce=" ++ h.Get "X-Tif-Nonce" ++ " signature="
                  ++ h.Get "X-Tif-Signature"⟩))
    ∧ (AuthSign opt now h = none
        ∨ (∃ m, AuthSign opt now h = some ⟨ErrorSite.timeOffset, m⟩)
        ∨ (∃ m, AuthSign opt now h = some ⟨ErrorSite.signatureInvalid, m⟩)) := by
  have hstep := AuthSign_after_time_test opt now h
  refine ⟨?_, hstep.1, hstep.2⟩
  intro hlo hhi hwin
  apply hstep.1
  have hiff := timeOffsetExceeded_iff opt now (ParseInt (h.Get "X-Tif-Timestamp")).1
    hlo.1 hlo.2 hhi.2 hhi.1
  have hnot : ¬ (timeOffsetExceeded opt now (ParseInt (h.Get "X-Tif-Timestamp")).1 = true) := by
    rw [hiff]
    omega
  simpa using hnot

/-- C10. Caller-identity fields are not bound by the signature: a request with
a non-empty uid `u`, uinfo `i`, ext `e` and nonce `n` is accepted by `AuthSign`
if and only if the request with the same timestamp and signature headers, no
uid and the nonce `n ++ "," ++ u ++ "," ++ i ++ "," ++ e` is accepted: both
hash the same string. -/
theorem authSign_identity_not_bound (opt : Options) (now : Int) (ts s n u i e : String)
    (h1 h2 : Header) (hu : u ≠ "")
    (h1ts : h1.Get "X-Tif-Timestamp" = ts) (h1sig : h1.Get "X-Tif-Signature" = s)
    (h1nonce : h1.Get "X-Tif-Nonce" = n) (h1uid : h1.Get "X-Tif-Uid" = u)
    (h1uinfo : h1.Get "X-Tif-Uinfo" = i) (h1ext : h1.Get "X-Tif-Ext" = e)
    (h2ts : h2.Get "X-Tif-Timestamp" = ts) (h2sig : h2.Get "X-Tif-Signature" = s)
    (h2nonce : h2.Get "X-Tif-Nonce" = n ++ "," ++ u ++ "," ++ i ++ "," ++ e)
    (h2uid : h2.Get "X-Tif-Uid" = "") :
    (AuthSign opt now h1 = none ↔ AuthSign opt now h2 = none)
      ∧ authSignData opt.PaasToken (h1.Get "X-Tif-Uid") (h1.Get "X-Tif-Uinfo")
            (h1.Get "X-Tif-Ext") (h1.Get "X-Tif-Timestamp") (h1.Get "X-Tif-Nonce")
          = authSignData opt.PaasToken (h2.Get "X-Tif-Uid") (h2.Get "X-Tif-Uinfo")
            (h2.Get "X-Tif-Ext") (h2.Get "X-Tif-Timestamp") (h2.Get "X-Tif-Nonce") := by
  have hdata : authSignData opt.PaasToken (h1.Get "X-Tif-Uid") (h1.Get "X-Tif-Uinfo")
        (h1.Get "X-Tif-Ext") (h1.Get "X-Tif-Timestamp") (h1.Get "X-Tif-Nonce")
      = authSignData opt.PaasToken (h2.Get "X-Tif-Uid") (h2.Get "X-Tif-Uinfo")
        (h2.Get "X-Tif-Ext") (h2.Get "X-Tif-Timestamp") (h2.Get "X-Tif-Nonce") := by
    rw [authSignData_eq, authSignData_eq, h1ts, h1nonce, h1uid, h1uinfo, h1ext, h2ts, h2nonce,
      h2uid, if_pos hu, if_neg (by simp)]
    simp only [String.append_assoc]
  refine ⟨?_, hdata⟩
  rw [AuthSign_eq, AuthSign_eq, hdata, h1ts, h2ts, h1sig, h2sig]
  split_ifs <;> simp

/-- C10, witness: uid `alice`, uinfo `info`, ext `x`, nonce `aa`. -/
theorem authSign_identity_not_bound_witness :
    (AuthSign exampleOptions 1700000100 identityHeader = none
        ↔ AuthSign exampleOptions 1700000100 foldedHeader = none)
      ∧ authSignData exampleOptions.PaasToken (identityHeader.Get "X-Tif-Uid")
            (identityHeader.Get "X-Tif-Uinfo") (identityHeader.Get "X-Tif-Ext")
            (identityHeader.Get "X-Tif-Timestamp") (identityHeader.Get "X-Tif-Nonce")
          = authSignData exampleOptions.PaasToken (foldedHeader.Get "X-Tif-Uid")
            (foldedHeader.Get "X-Tif-Uinfo") (foldedHeader.Get "X-Tif-Ext")
            (foldedHeader.Get "X-Tif-Timestamp") (foldedHeader.Get "X-Tif-Nonce") :=
  authSign_identity_not_bound exampleOptions 1700000100 "1700000000"
    (gateSignature "1700000000" "abc123" "aa,alice,info,x") "aa" "alice" "info" "x"
    identityHeader foldedHeader (by decide) rfl rfl rfl rfl rfl rfl rfl rfl (by decide) rfl

set_option maxRecDepth 100000 in
/-- The two requests of the example are both accepted: the signature made for
the request without identity passes for the request of `alice`. -/
theorem authSign_identity_example :
    AuthSign exampleOptions 1700000100 foldedHeader = none
      ∧ AuthSign exampleOptions 1700000100 identityHeader = none := by
  decide

/-! ## What `ParseInt` returns for text that is no `int64` -/

theorem decimalValue_ge (ds : List Char) : ∀ n : Nat, n ≤ decimalValue n ds := by
  induction ds with
  | nil => intro n; exact Nat.le_refl _
  | cons c ds ih =>
    intro n
    have h := ih (n * 10 + (c.toNat - 48))
    simp only [decimalValue, List.foldl_cons] at h ⊢
    omega

theorem parseUintLoop_not_digit (c : Char) (rest : List Char) (n : Nat)
    (hc : isDecimalDigit c = false) :
    parseUintLoop (c :: rest) n = (0, some NumError.syntaxError) := by
  have h : ¬ (48 ≤ c.toNat ∧ c.toNat ≤ 57) := by
    simpa [isDecimalDigit] using hc
  unfold parseUintLoop
  rw [if_neg h]
  split_ifs <;> rfl

theorem parseUintLoop_cons_digit (c : Char) (rest : List Char) (n : Nat)
    (hc : 48 ≤ c.toNat ∧ c.toNat ≤ 57) :
    parseUintLoop (c :: rest) n =
      if n ≥ maxUint64 / 10 + 1 then (maxUint64, some NumError.rangeError)
      else if n * 10 + (c.toNat - 48) > maxUint64 then (maxUint64, some NumError.rangeError)
      else parseUintLoop rest (n * 10 + (c.toNat - 48)) := by
  rw [parseUintLoop, if_pos hc]

theorem parseUintLoop_digits (ds : List Char) :
    ∀ (tail : List Char) (n : Nat), (∀ c ∈ ds, isDecimalDigit c = true) → n ≤ maxUint64 →
      parseUintLoop (ds ++ tail) n =
        if decimalValue n ds ≤ maxUint64 then parseUintLoop tail (decimalValue n ds)
        else (maxUint64, some NumError.rangeError) := by
  induction ds with
  | nil =>
    intro tail n _ hn
    simp [decimalValue, hn]
  | cons c ds ih =>
    intro tail n hds hn
    have hc : 48 ≤ c.toNat ∧ c.toNat ≤ 57 := by
      simpa [isDecimalDigit] using hds c (List.mem_cons_self _ _)
    have hrest : ∀ x ∈ ds, isDecimalDigit x = true := fun x hx => hds x (List.mem_cons_of_mem _ hx)
    have hge := decimalValue_ge ds (n * 10 + (c.toNat - 48))
    have hval : decimalValue n (c :: ds) = decimalValue (n * 10 + (c.toNat - 48)) ds := rfl
    rw [hval, List.cons_append, parseUintLoop_cons_digit c _ n hc]
    by_cases h1 : n ≥ maxUint64 / 10 + 1
    · rw [if_pos h1, if_neg]
      unfold maxUint64 at *
      omega
    · rw [if_neg h1]
      by_cases h2 : n * 10 + (c.toNat - 48) > maxUint64
      · rw [if_pos h2, if_neg]
        omega
      · rw [if_neg h2]
        exact ih tail (n * 10 + (c.toNat - 48)) hrest (by omega)

theorem isDecimalDigit_ne_sign (c : Char) (hc : isDecimalDigit c = true) :
    ¬ (c = '+' ∨ c = '-') := by
  have h : 48 ≤ c.toNat ∧ c.toNat ≤ 57 := by simpa [isDecimalDigit] using hc
  rintro (rfl | rfl)
  · exact absurd h (by decide)
  · exact absurd h (by decide)

theorem ParseInt_syntax (ds rest : List Char) (c : Char)
    (hds : ∀ x ∈ ds, isDecimalDigit x = true) (hval : decimalValue 0 ds ≤ maxUint64)
    (hc : isDecimalDigit c = false) (hsign : ds = [] → c ≠ '+' ∧ c ≠ '-') :
    ParseInt (String.mk (ds ++ c :: rest)) = (0, some NumError.syntaxError) := by
  have hU : ParseUint (ds ++ c :: rest) = (0, some NumError.syntaxError) := by
    unfold ParseUint
    rw [if_neg (by simp), parseUintLoop_digits ds (c :: rest) 0 hds (by decide), if_pos hval,
      parseUintLoop_not_digit c rest _ hc]
  cases ds with
  | nil =>
    have hs : ¬ (c = '+' ∨ c = '-') := fun h => h.elim (hsign rfl).1 (hsign rfl).2
    simp only [List.nil_append] at hU
    simp only [ParseInt, List.nil_append, if_neg hs, hU]
    simp
  | cons d ds =>
    have hs := isDecimalDigit_ne_sign d (hds d (List.mem_cons_self _ _))
    simp only [List.cons_append] at hU
    simp only [ParseInt, List.cons_append, if_neg hs, hU]
    simp

theorem ParseInt_above_range (ds : List Char) (hds : ∀ x ∈ ds, isDecimalDigit x = true)
    (hne : ds ≠ []) (hval : 9223372036854775808 ≤ decimalValue 0 ds) :
    ParseInt (String.mk ds) = (9223372036854775807, some NumError.rangeError) := by
  have hloop := parseUintLoop_digits ds [] 0 hds (by decide)
  rw [List.append_nil] at hloop
  have hU : ParseUint ds = if decimalValue 0 ds ≤ maxUint64 then (decimalValue 0 ds, none)
      else (maxUint64, some NumError.rangeError) := by
    unfold ParseUint
    rw [if_neg hne, hloop]
    rfl
  cases ds with
  | nil => exact absurd rfl hne
  | cons d ds =>
    have hs := isDecimalDigit_ne_sign d (hds d (List.mem_cons_self _ _))
    have hm : d ≠ '-' := fun h => hs (Or.inr h)
    simp only [ParseInt, if_neg hs, hU]
    split_ifs <;> simp_all [maxUint64]

theorem ParseInt_below_range (ds : List Char) (hds : ∀ x ∈ ds, isDecimalDigit x = true)
    (hval : 9223372036854775808 < decimalValue 0 ds) :
    ParseInt (String.mk ('-' :: ds)) = (-9223372036854775808, some NumError.rangeError) := by
  have hne : ds ≠ [] := by
    rintro rfl
    simp [decimalValue] at hval
  have hloop := parseUintLoop_digits ds [] 0 hds (by decide)
  rw [List.append_nil] at hloop
  have hU : ParseUint ds = if decimalValue 0 ds ≤ maxUint64 then (decimalValue 0 ds, none)
      else (maxUint64, some NumError.rangeError) := by
    unfold ParseUint
    rw [if_neg hne, hloop]
    rfl
  simp only [ParseInt, or_true, if_true, hU]
  split_ifs <;> simp_all [maxUint64]

theorem AuthSign_timeOffset_iff (opt : Options) (now : Int) (h : Header) :
    (∃ m, AuthSign opt now h = some ⟨ErrorSite.timeOffset, m⟩)
      ↔ ((ParseInt (h.Get "X-Tif-Timestamp")).1 < wrapInt64 (now - opt.TimeOffsetLimit)
          ∨ (ParseInt (h.Get "X-Tif-Timestamp")).1 > wrapInt64 (now + opt.TimeOffsetLimit)) := by
  rw [AuthSign_eq]
  by_cases hw : timeOffsetExceeded opt now (ParseInt (h.Get "X-Tif-Timestamp")).1 = true
  · rw [if_pos hw]
    have hw2 := hw
    simp only [timeOffsetExceeded, decide_eq_true_eq] at hw2
    exact ⟨fun _ => hw2, fun _ => ⟨_, rfl⟩⟩
  · rw [if_neg hw]
    have hw2 := hw
    simp only [timeOffsetExceeded, decide_eq_true_eq] at hw2
    constructor
    · rintro ⟨m, hm⟩
      split_ifs at hm
      simp at hm
    · intro hh
      exact absurd hh hw2

/-- What `ParseInt` returns for some texts that are no `int64`, and for two
that are. -/
theorem ParseInt_examples :
    ParseInt "" = (0, some NumError.syntaxError)
    ∧ ParseInt "abc" = (0, some NumError.syntaxError)
    ∧ ParseInt "12a" = (0, some NumError.syntaxError)
    ∧ ParseInt "-" = (0, some NumError.syntaxError)
    ∧ ParseInt "1700000000 " = (0, some NumError.syntaxError)
    ∧ ParseInt "9223372036854775808" = (9223372036854775807, some NumError.rangeError)
    ∧ ParseInt "99999999999999999999999x" = (9223372036854775807, some NumError.rangeError)
    ∧ ParseInt "-9223372036854775809" = (-9223372036854775808, some NumError.rangeError)
    ∧ ParseInt "-9223372036854775808" = (-9223372036854775808, none)
    ∧ ParseInt "+1700000000" = (1700000000, none) := by
  decide

/-- C9, counterexample. The timestamp header `9223372036854775808` is a digit
string outside the `int64` range. With the clock at 1700000000 and a window of
2000000000 seconds neither `0 < now - window` nor `0 > now + window` holds,
yet `AuthSign` returns the time-offset error: the timestamp it uses is
9223372036854775807, not 0. -/
theorem out_of_range_timestamp_is_not_zero :
    ¬ ((0 : Int) < 1700000000 - wideOptions.TimeOffsetLimit
        ∨ (0 : Int) > 1700000000 + wideOptions.TimeOffsetLimit)
    ∧ ParseInt (outOfRangeHeader.Get "X-Tif-Timestamp")
        = (9223372036854775807, some NumError.rangeError)
    ∧ AuthSign wideOptions 1700000000 outOfRangeHeader
        = some ⟨ErrorSite.timeOffset,
            "Header time offset exceeded limit, timestamp=9223372036854775808 now=1700000000"⟩ :=
  ⟨by decide, by decide, by decide⟩

/-- C9, amended. Lenient timestamp parsing: `AuthSign` tests the value
`strconv.ParseInt` returns and ignores its error. For a timestamp header with
a syntax error (an absent or empty header, or a character that is no digit
after digits that stay in the `uint64` range) that value is 0, so the request
is rejected with the time-offset error exactly when `0 < now - window` or
`0 > now + window`, the bounds being `int64` results. For a digit string of
value 2^63 or more the value is 9223372036854775807, and for a minus sign and a
digit string of value above 2^63 it is -9223372036854775808. -/
theorem authSign_unparsable_timestamp (opt : Options) (now : Int) (h : Header)
    (ds rest : List Char) (c : Char) :
    ((∃ m, AuthSign opt now h = some ⟨ErrorSite.timeOffset, m⟩)
        ↔ ((ParseInt (h.Get "X-Tif-Timestamp")).1 < wrapInt64 (now - opt.TimeOffsetLimit)
            ∨ (ParseInt (h.Get "X-Tif-Timestamp")).1 > wrapInt64 (now + opt.TimeOffsetLimit)))
    ∧ ((ParseInt (h.Get "X-Tif-Timestamp")).2 = some NumError.syntaxError →
        (ParseInt (h.Get "X-Tif-Timestamp")).1 = 0
          ∧ ((∃ m, AuthSign opt now h = some ⟨ErrorSite.timeOffset, m⟩)
              ↔ (0 < wrapInt64 (now - opt.TimeOffsetLimit)
                  ∨ 0 > wrapInt64 (now + opt.TimeOffsetLimit))))
    ∧ ParseInt (Header.empty.Get "X-Tif-Timestamp") = (0, some NumError.syntaxError)
    ∧ ((∀ x ∈ ds, isDecimalDigit x = true) → decimalValue 0 ds ≤ maxUint64 →
        isDecimalDigit c = false → (ds = [] → c ≠ '+' ∧ c ≠ '-') →
        ParseInt (String.mk (ds ++ c :: rest)) = (0, some NumError.syntaxError))
    ∧ ((∀ x ∈ ds, isDecimalDigit x = true) → ds ≠ [] →
        9223372036854775808 ≤ decimalValue 0 ds →
        ParseInt (String.mk ds) = (9223372036854775807, some NumError.rangeError))
    ∧ ((∀ x ∈ ds, isDecimalDigit x = true) → 9223372036854775808 < decimalValue 0 ds →
        ParseInt (String.mk ('-' :: ds)) = (-9223372036854775808, some NumError.rangeError)) := by
  refine ⟨AuthSign_timeOffset_iff opt now h, ?_, by decide, ParseInt_syntax ds rest c,
    ParseInt_above_range ds, ParseInt_below_range ds⟩
  intro hsyn
  have hzero : (ParseInt (h.Get "X-Tif-Timestamp")).1 = 0 := by
    generalize h.Get "X-Tif-Timestamp" = ts at hsyn ⊢
    unfold ParseInt at hsyn ⊢
    split at hsyn
    · rfl
    · simp only at hsyn ⊢
      split_ifs at hsyn ⊢ <;> simp_all
  refine ⟨hzero, ?_⟩
  rw [AuthSign_timeOffset_iff, hzero]

/-- C6. The envelope check of `DoAPI` is vacuous: for every world, request,
path and result target `DoAPI` returns what `Do` returns (the same error or
nil, the same request state and result target), it never returns the domain
error, and a 200 response with the body
`{"errcode":7,"errmsg":"not found","data":null}` that decodes into the target
makes it return nil. -/
theorem doAPI_is_do {τ : Type} (opt : Options) (w : World τ) (r : Request) (path : String)
    (result : τ) :
    r.DoAPI opt w path result = r.Do opt w path result
    ∧ (∀ m r1 result1,
        r.DoAPI opt w path result ≠ some (some ⟨ErrorSite.domain, m⟩, r1, result1))
    ∧ (∀ host, getHost opt w.intn = some host →
        w.newRequest r.method (host ++ path) r.reqbody = none →
        w.clientDo (r.outbound opt w (host ++ path))
          = ClientResult.ok
              { StatusCode := 200,
                Body := ("\x7b\"errcode\":7,\"errmsg\":\"not found\",\"data\":null\x7d", none) } →
        (w.unmarshal "\x7b\"errcode\":7,\"errmsg\":\"not found\",\"data\":null\x7d" result).2 = none →
        (r.DoAPI opt w path result).map (fun o => o.1) = some none) := by
  have heq : r.DoAPI opt w path result = r.Do opt w path result := by
    unfold Request.DoAPI
    rcases r.Do opt w path result with _ | ⟨_ | e, r1, result1⟩ <;> simp
  refine ⟨heq, ?_, ?_⟩
  · intro m r1 result1
    rw [heq]
    unfold Request.Do
    cases getHost opt w.intn with
    | none => simp
    | some host =>
      simp only
      cases w.newRequest r.method (host ++ path) r.reqbody with
      | some e => simp
      | none =>
        simp only
        cases w.clientDo (r.outbound opt w (host ++ path)) with
        | failed res0 e => simp
        | ok res =>
          simp only
          split_ifs
          · simp [Errorf]
          · rcases res.Body.2 with _ | e
            · simp only
              rcases w.unmarshal res.Body.1 result with ⟨t, _ | e⟩ <;> simp [Errorf]
            · simp
  · intro host hhost hnew hdo hjson
    rw [heq]
    unfold Request.Do
    simp only [hhost, hnew, hdo]
    cases hu : w.unmarshal "\x7b\"errcode\":7,\"errmsg\":\"not found\",\"data\":null\x7d" result with
    | mk t e =>
      rw [hu] at hjson
      simp only at hjson
      subst hjson
      simp [hu]

/-- The envelope with the error code 7 in the world `envelopeWorld`: `DoAPI`
returns nil and the target holds the body. -/
theorem doAPI_envelope_example :
    (usedRequest.DoAPI exampleOptions envelopeWorld "/v1/item" "").map (fun o => (o.1, o.2.2))
      = some (none, "\x7b\"errcode\":7,\"errmsg\":\"not found\",\"data\":null\x7d") := by
  rfl

/-- C7, counterexample. A fresh request to a gateway that keeps redirecting:
`client.Do` returns the last response, whose status code 302 is not 200,
together with the error of the redirect policy, and `Do` returns that error,
not the HTTP-status error `http status=302 content=`; the response is stored
in the request. -/
theorem do_redirect_failure_is_not_status_error :
    (New.Do exampleOptions redirectWorld "/v1/item" "target").map
        (fun o => (o.1, o.2.1.GetResp.map HttpResponse.StatusCode, o.2.1.GetBody, o.2.2))
      = some (some ⟨ErrorSite.transport,
            "Get \"https://gw.example/v1/item\": stopped after 10 redirects"⟩,
          some 302, "", "target")
    ∧ (New.Do exampleOptions redirectWorld "/v1/item" "target").map (fun o => o.1)
        ≠ some (some ⟨ErrorSite.httpStatus, "http status=" ++ FormatInt 302 ++ " content="⟩) := by
  decide

/-- C7, amended. Non-200 responses: when the HTTP client returns, without an
error, a response whose status code is not 200, whatever its body, `Do` returns the HTTP-status error
with that code, and leaves the result target and the stored response body
(`GetBody`) as they were: the body is not read and nothing is decoded. The
content part of the message is the body stored before the call, which is empty
on a fresh request. -/
theorem do_non200 {τ : Type} (opt : Options) (w : World τ) (r : Request) (path : String)
    (result : τ) (host : String) (res : HttpResponse)
    (hhost : getHost opt w.intn = some host)
    (hnew : w.newRequest r.method (host ++ path) r.reqbody = none)
    (hdo : w.clientDo (r.outbound opt w (host ++ path)) = ClientResult.ok res)
    (hstatus : res.StatusCode ≠ 200) :
    r.Do opt w path result
        = some (some ⟨ErrorSite.httpStatus,
              "http status=" ++ FormatInt res.StatusCode ++ " content=" ++ r.GetBody⟩,
            { r with req := some (r.outbound opt w (host ++ path)), res := some res }, result)
    ∧ (r.GetBody = "" →
        (r.Do opt w path result).map (fun o => o.1)
          = some (some ⟨ErrorSite.httpStatus,
              "http status=" ++ FormatInt res.StatusCode ++ " content="⟩))
    ∧ New.GetBody = "" := by
  have hDo : r.Do opt w path result
      = some (some ⟨ErrorSite.httpStatus,
            "http status=" ++ FormatInt res.StatusCode ++ " content=" ++ r.GetBody⟩,
          { r with req := some (r.outbound opt w (host ++ path)), res := some res }, result) := by
    unfold Request.Do
    simp only [hhost, hnew, hdo, if_pos hstatus, Errorf, Sprintf_httpStatus, Request.GetBody]
  refine ⟨hDo, ?_, rfl⟩
  intro hbody
  rw [hDo, hbody]
  simp

/-- C7, witness: a fresh request and a gateway that answers 500 with the body
`oops`. -/
theorem do_non200_witness :
    (New.Do exampleOptions failingWorld "/v1/item" "target"
        = some (some ⟨ErrorSite.httpStatus,
              "http status=" ++ FormatInt 500 ++ " content=" ++ New.GetBody⟩,
            { New with
              req := some (New.outbound exampleOptions failingWorld
                ("https://gw.example" ++ "/v1/item")),
              res := some { StatusCode := 500, Body := ("oops", none) } }, "target"))
    ∧ (New.GetBody = "" →
        (New.Do exampleOptions failingWorld "/v1/item" "target").map (fun o => o.1)
          = some (some ⟨ErrorSite.httpStatus, "http status=" ++ FormatInt 500 ++ " content="⟩))
    ∧ New.GetBody = "" :=
  do_non200 exampleOptions failingWorld New "/v1/item" "target" "https://gw.example"
    { StatusCode := 500, Body := ("oops", none) } rfl rfl rfl (by decide)

theorem mapGet_mapSet_same (m : List (String × String)) (k v : String) :
    mapGet (some (mapSet m k v)) k = v := by
  simp [mapGet, mapSet]

theorem find_filter_other (m : List (String × String)) (k k1 : String) (hk : k1 ≠ k) :
    (m.filter (fun kv => kv.1 ≠ k)).find? (fun kv => kv.1 = k1)
      = m.find? (fun kv => kv.1 = k1) := by
  induction m with
  | nil => rfl
  | cons kv m ih =>
    by_cases h1 : kv.1 = k1
    · have h2 : kv.1 ≠ k := fun h => hk (h1 ▸ h)
      rw [List.filter_cons, if_pos (by simpa using h2), List.find?_cons, List.find?_cons]
      simp [h1]
    · by_cases h2 : kv.1 = k
      · rw [List.filter_cons, if_neg (by simpa using h2), ih, List.find?_cons]
        simp [h1]
      · rw [List.filter_cons, if_pos (by simpa using h2), List.find?_cons, List.find?_cons, ih]

theorem mapGet_mapSet_other (m : List (String × String)) (k v k1 : String) (hk : k1 ≠ k) :
    mapGet (some (mapSet m k v)) k1 = mapGet (some m) k1 := by
  have hk2 : ¬ (k = k1) := fun h => hk h.symm
  unfold mapGet mapSet
  rw [Option.getD_some, Option.getD_some, List.find?_cons]
  simp only [hk2, decide_False]
  rw [find_filter_other m k k1 hk]

/-- C8, the code at the failing input. `New` yields a request with the method
GET and the nil map as header, and `SetHeader` on it panics for every key and
value. On a request whose map is not nil `SetHeader` returns the request with
`k` mapped to `v` and every other key as before. -/
theorem setHeader_on_new_panics (k v : String) :
    New.method = "GET" ∧ New.header = none
    ∧ New.SetHeader k v = none
    ∧ (∀ (r : Request) (m : List (String × String)), r.header = some m →
        ∃ r1, r.SetHeader k v = some r1 ∧ mapGet r1.header k = v
          ∧ (∀ k1, k1 ≠ k → mapGet r1.header k1 = mapGet r.header k1)
          ∧ r1.method = r.method ∧ r1.reqbody = r.reqbody ∧ r1.resbody = r.resbody) := by
  refine ⟨rfl, rfl, rfl, ?_⟩
  intro r m hm
  refine ⟨{ r with header := some (mapSet m k v) }, ?_, mapGet_mapSet_same m k v, ?_, rfl, rfl, rfl⟩
  · simp [Request.SetHeader, hm]
  · intro k1 hk1
    rw [hm]
    exact mapGet_mapSet_other m k v k1 hk1

end Tifgo
